import Mathlib

/-!
Verification of the EPUB status-orchestration core of jplaw2epub-web-api.

The definitions below are a shallow embedding of `graphql/epub_resolver.go`.
External collaborators (the object store, the signed-URL issuer, the clock and
RFC3339 formatting/parsing of the standard library, the Cloud Run jobs client)
are modelled as explicit oracle values carried in `Env` / `Store` / `JobEnv`;
the control flow of the Go functions is translated branch for branch.
Side effects on the store and the dispatcher are made observable as an
`Effect` list returned alongside the response.
-/

namespace Jplaw2Epub

/-- Fixed application/schema version tag (constant `APP_VERSION` in the source). -/
def APP_VERSION : String := "v1.0.0"

/-- Object key of the artifact for an id (`epubPath` in `getEpub`). -/
def epubPath (id : String) : String := APP_VERSION ++ "/" ++ id ++ ".epub"

/-- Object key of the status record for an id (`statusPath` in `getEpub`). -/
def statusPath (id : String) : String := APP_VERSION ++ "/" ++ id ++ ".status"

/-- GraphQL status enum (`model.EpubStatus`). -/
inductive EpubStatus
  | pending
  | processing
  | completed
  | failed
deriving DecidableEq, Repr

/-- GraphQL response object (`model.Epub`): pointer fields become `Option`. -/
structure Epub where
  id : String
  signedURL : Option String
  status : EpubStatus
  error : Option String
deriving DecidableEq, Repr

/-- A decoded JSON value, as produced by `json.Decode` into `map[string]interface{}`.
Only the string case is inspected by the source (via `.(string)` assertions);
the other constructors exist so that non-string field values are representable. -/
inductive JValue
  | jstr (s : String)
  | jnum (n : Int)
  | jbool (b : Bool)
  | jnull
deriving DecidableEq, Repr

/-- A decoded status record: the `map[string]interface{}` of the source. -/
def StatusMap : Type := List (String × JValue)

instance : DecidableEq StatusMap := by
  unfold StatusMap
  infer_instance

/-- Field lookup in the decoded map (`status["k"]` in Go). -/
def lookupField : StatusMap → String → Option JValue
  | [], _ => none
  | (k, v) :: rest, key => if k = key then some v else lookupField rest key

/-- The Go comma-ok string type assertion `v, ok := x.(string)`:
succeeds exactly when the field is present and is a JSON string. -/
def asString : Option JValue → Option String
  | some (.jstr s) => some s
  | _ => none

/-- Outcome of decoding an existing status object
(`json.NewDecoder(statusReader).Decode(&status)` in `handleExistingStatus`). -/
inductive StatusContent
  | corrupt
  | record (m : StatusMap)
deriving DecidableEq

/-- Outcome of `statusObj.NewReader(ctx)`. The source only tests `err == nil`,
so `errNotFound` and `errOther` are indistinguishable to the code; both
constructors exist so that properties about the distinction can be stated. -/
inductive StatusRead
  | errNotFound
  | errOther
  | opened (c : StatusContent)
deriving DecidableEq

/-- Observable side effects of one query: a fire-and-forget dispatch
(`go triggerEpubGeneratorJob(id)`) or a full overwrite of the status object
with the encoded `map[string]string{"status": s, "createdAt": c}`. -/
inductive Effect
  | dispatch (id : String)
  | writeStatus (status : String) (createdAt : String)
deriving DecidableEq, Repr

/-- Clock and RFC3339 oracles of the standard library:
`now` is `time.Now()` as an absolute instant in seconds,
`format` is `t.Format(time.RFC3339)`,
`parse` is `time.Parse(time.RFC3339, s)` (`none` when parsing errors). -/
structure Env where
  now : Int
  format : Int → String
  parse : String → Option Int

/-- Per-request behavior of the object store for the queried id:
`clientOk` is `storage.NewClient` succeeding,
`artifact` is `epubObj.Attrs(ctx)` returning no error (the artifact exists),
`sign` is the outcome of `bucket.SignedURL` (`some url` on success),
`statusRead` is the outcome of reading the status object,
`writeOk` is whether a status-object write (encode + close) succeeds. -/
structure Store where
  clientOk : Bool
  artifact : Bool
  sign : Option String
  statusRead : StatusRead
  writeOk : Bool

/-- Staleness threshold: `5*time.Minute`, in seconds. -/
def staleThresholdSecs : Int := 300

/-- `updateStatusTimestamp`: rewrite the status object with
`{"status": "PENDING", "createdAt": time.Now().Format(time.RFC3339)}`;
an encode failure is only logged, producing no store mutation. -/
def updateStatusTimestamp (env : Env) (writeOk : Bool) : List Effect :=
  if writeOk then [.writeStatus "PENDING" (env.format env.now)] else []

/-- `handlePendingStatus`: staleness check of a PENDING record.
`createdAt` missing or non-string → dispatch unconditionally;
unparsable → return silently; older than 5 minutes → dispatch and refresh. -/
def handlePendingStatus (env : Env) (writeOk : Bool) (m : StatusMap) (id : String) :
    List Effect :=
  match asString (lookupField m "createdAt") with
  | none => [.dispatch id]
  | some createdAt =>
    match env.parse createdAt with
    | none => []
    | some created =>
      if env.now - created > staleThresholdSecs then
        .dispatch id :: updateStatusTimestamp env writeOk
      else []

/-- The `errorMsg` computation of `handleExistingStatus`:
`if e, ok := status["error"].(string); ok && e != ""`. -/
def recordError (m : StatusMap) : Option String :=
  match asString (lookupField m "error") with
  | some e => if e = "" then none else some e
  | none => none

/-- `handleExistingStatus`: decode the status object and branch on the
`status` field (missing or non-string defaults to "PENDING"; any string other
than PROCESSING/FAILED/PENDING leaves the initial PENDING value). -/
def handleExistingStatus (env : Env) (writeOk : Bool) (c : StatusContent)
    (id : String) : Except String Epub × List Effect :=
  match c with
  | .corrupt => (.error "failed to decode status", [])
  | .record m =>
    let statusStr := (asString (lookupField m "status")).getD "PENDING"
    let branch : EpubStatus × List Effect :=
      if statusStr = "PROCESSING" then (.processing, [])
      else if statusStr = "FAILED" then (.failed, [])
      else if statusStr = "PENDING" then
        (.pending, handlePendingStatus env writeOk m id)
      else (.pending, [])
    (.ok { id := id, signedURL := none, status := branch.1, error := recordError m },
     branch.2)

/-- The first-request arm of `getEpub`: write
`{"status": "PENDING", "createdAt": time.Now().Format(time.RFC3339)}`,
dispatch, respond PENDING; a failed write aborts before any mutation. -/
def firstRequest (env : Env) (writeOk : Bool) (id : String) :
    Except String Epub × List Effect :=
  if writeOk then
    (.ok { id := id, signedURL := none, status := .pending, error := none },
     [.writeStatus "PENDING" (env.format env.now), .dispatch id])
  else (.error "failed to create status file", [])

/-- `getEpub`: the per-query decision procedure of the Orchestrator.
Artifact existence is checked first; otherwise the status object is read, and
ANY reader error (not-found or otherwise, the source only tests `err == nil`)
falls through to the first-request arm. -/
def getEpub (env : Env) (st : Store) (id : String) :
    Except String Epub × List Effect :=
  if st.clientOk = false then (.error "failed to create storage client", [])
  else if st.artifact then
    match st.sign with
    | some url =>
      (.ok { id := id, signedURL := some url, status := .completed, error := none }, [])
    | none => (.error "failed to generate signed URL", [])
  else
    match st.statusRead with
    | .opened c => handleExistingStatus env st.writeOk c id
    | .errNotFound => firstRequest env st.writeOk id
    | .errOther => firstRequest env st.writeOk id

/-- Configuration and client oracle of `triggerEpubGeneratorJob`:
the `PROJECT_ID`, `REGION`, `EPUB_JOB_NAME` environment variables
and whether `run.NewJobsClient` succeeds. -/
structure JobEnv where
  projectID : String
  region : String
  jobName : String
  clientOk : Bool

/-- A Cloud Run job execution request (`runpb.RunJobRequest` restricted to the
fields the source sets: the job name and the container argument override). -/
structure RunJobRequest where
  name : String
  args : List String
deriving DecidableEq, Repr

/-- `triggerEpubGeneratorJob`: builds the execution request, or gives up
(logging only) when `PROJECT_ID` is unset or the jobs client cannot be made.
`REGION` defaults to "asia-northeast1", `EPUB_JOB_NAME` to "epub-generator". -/
def triggerEpubGeneratorJob (env : JobEnv) (id : String) : Option RunJobRequest :=
  if env.projectID = "" then none
  else
    let region := if env.region = "" then "asia-northeast1" else env.region
    let jobName := if env.jobName = "" then "epub-generator" else env.jobName
    if env.clientOk = false then none
    else some
      { name := "projects/" ++ env.projectID ++ "/locations/" ++ region
          ++ "/jobs/" ++ jobName,
        args := ["--revision-id", id, "--version", APP_VERSION] }

/-- The response error field that `getEpub` produces on its successful paths:
none when the artifact wins or no record was decoded, otherwise the decoded
record's non-empty `error` string. Used to state the field-presence law. -/
def effectiveError (st : Store) : Option String :=
  if st.artifact then none
  else
    match st.statusRead with
    | .opened (.record m) => recordError m
    | _ => none

/-! Concrete sample oracles used by witnesses and counterexamples. -/

/-- A concrete clock/format/parse oracle: a small table of instants, under
which formatting the current instant and parsing it back round-trips. -/
def sampleEnv : Env :=
  { now := 1000
    format := fun t => if t = 1000 then "t1000" else "t-other"
    parse := fun s =>
      if s = "t1000" then some 1000
      else if s = "900" then some 900
      else if s = "100" then some 100
      else none }

/-- A store whose artifact exists, with a contradictory FAILED status record
coexisting, and a successful signer. -/
def artifactStore : Store :=
  { clientOk := true, artifact := true, sign := some "https://signed.example/u"
    statusRead := .opened (.record [("status", .jstr "FAILED"), ("error", .jstr "boom")])
    writeOk := true }

/-- A store where the artifact is absent and the status read fails for a
reason other than not-found. -/
def readFailureStore : Store :=
  { clientOk := true, artifact := false, sign := none
    statusRead := .errOther, writeOk := true }

/-- A store with no artifact and no status record (first request). -/
def freshStore : Store :=
  { clientOk := true, artifact := false, sign := none
    statusRead := .errNotFound, writeOk := true }

/-- A store holding a PROCESSING record that carries a non-empty error string. -/
def processingErrorStore : Store :=
  { clientOk := true, artifact := false, sign := none
    statusRead := .opened (.record
      [("status", .jstr "PROCESSING"), ("error", .jstr "x")])
    writeOk := true }

/-- A store holding a corrupt (undecodable) status object. -/
def corruptStore : Store :=
  { clientOk := true, artifact := false, sign := none
    statusRead := .opened .corrupt, writeOk := true }

/-- A PENDING record created at instant 900 (100 seconds before
`sampleEnv.now`, hence fresh). -/
def freshPendingStore : Store :=
  { clientOk := true, artifact := false, sign := none
    statusRead := .opened (.record
      [("status", .jstr "PENDING"), ("createdAt", .jstr "900")])
    writeOk := true }

/-- A PENDING record created at instant 100 (900 seconds before
`sampleEnv.now`, hence stale). -/
def stalePendingStore : Store :=
  { clientOk := true, artifact := false, sign := none
    statusRead := .opened (.record
      [("status", .jstr "PENDING"), ("createdAt", .jstr "100")])
    writeOk := true }

/-- A PENDING record with no createdAt field but other noise fields. -/
def noCreatedAtStore : Store :=
  { clientOk := true, artifact := false, sign := none
    statusRead := .opened (.record
      [("status", .jstr "PENDING"), ("error", .jstr "leftover"), ("x", .jnum 3)])
    writeOk := true }

/-- A PENDING record whose createdAt is present but unparsable. -/
def badTimestampStore : Store :=
  { clientOk := true, artifact := false, sign := none
    statusRead := .opened (.record
      [("status", .jstr "PENDING"), ("createdAt", .jstr "not-a-time")])
    writeOk := true }

/-! Helper lemmas shared by the claim theorems. -/

/-- On a successfully decoded record, `handleExistingStatus` answers with the
queried id, no signed URL, a status that is never COMPLETED, and the record's
non-empty error string, whatever the `status` field holds. -/
theorem handleExistingStatus_record_fst (env : Env) (w : Bool) (m : StatusMap)
    (id : String) :
    ∃ s : EpubStatus, s ≠ .completed ∧
      (handleExistingStatus env w (.record m) id).1 =
        .ok { id := id, signedURL := none, status := s, error := recordError m } := by
  unfold handleExistingStatus
  by_cases h1 : (asString (lookupField m "status")).getD "PENDING" = "PROCESSING"
  · exact ⟨.processing, by simp, by simp [h1]⟩
  by_cases h2 : (asString (lookupField m "status")).getD "PENDING" = "FAILED"
  · exact ⟨.failed, by simp, by simp [h1, h2]⟩
  by_cases h3 : (asString (lookupField m "status")).getD "PENDING" = "PENDING"
  · exact ⟨.pending, by simp, by simp [h1, h2, h3]⟩
  · exact ⟨.pending, by simp, by simp [h1, h2, h3]⟩

/-- Every write performed by `updateStatusTimestamp` carries status PENDING. -/
theorem updateStatusTimestamp_write_pending (env : Env) (w : Bool) (s c : String)
    (h : Effect.writeStatus s c ∈ updateStatusTimestamp env w) : s = "PENDING" := by
  unfold updateStatusTimestamp at h
  split at h
  · simp at h
    exact h.1
  · simp at h

/-- Every write performed by `handlePendingStatus` carries status PENDING. -/
theorem handlePendingStatus_write_pending (env : Env) (w : Bool) (m : StatusMap)
    (id s c : String)
    (h : Effect.writeStatus s c ∈ handlePendingStatus env w m id) : s = "PENDING" := by
  unfold handlePendingStatus at h
  split at h
  · simp at h
  split at h
  · simp at h
  split at h
  · simp at h
    exact updateStatusTimestamp_write_pending env w s c h
  · simp at h

/-- Every write performed by `handleExistingStatus` carries status PENDING. -/
theorem handleExistingStatus_write_pending (env : Env) (w : Bool)
    (cnt : StatusContent) (id s c : String)
    (h : Effect.writeStatus s c ∈ (handleExistingStatus env w cnt id).2) :
    s = "PENDING" := by
  cases cnt with
  | corrupt => simp [handleExistingStatus] at h
  | record m =>
    unfold handleExistingStatus at h
    by_cases h1 : (asString (lookupField m "status")).getD "PENDING" = "PROCESSING"
    · simp [h1] at h
    by_cases h2 : (asString (lookupField m "status")).getD "PENDING" = "FAILED"
    · simp [h1, h2] at h
    by_cases h3 : (asString (lookupField m "status")).getD "PENDING" = "PENDING"
    · simp [h1, h2, h3] at h
      exact handlePendingStatus_write_pending env w m id s c h
    · simp [h1, h2, h3] at h

/-! Claim theorems. -/

/-- C1: whenever the storage client is available, the artifact object exists
and signed-URL issuance succeeds with url, query(id) returns COMPLETED with
the signed URL present (field = some url), for every coexisting status-record
content and write behavior, and performs no dispatch call and no store write
(the effect list is empty). -/
theorem C1_artifact_precedence (env : Env) (st : Store) (id url : String)
    (hc : st.clientOk = true) (ha : st.artifact = true) (hs : st.sign = some url) :
    getEpub env st id =
      (.ok { id := id, signedURL := some url, status := .completed, error := none },
       []) := by
  simp [getEpub, hc, ha, hs]

/-- C1 witness: the artifact-precedence theorem applied to a concrete store
whose coexisting record says FAILED. -/
theorem C1_artifact_precedence_witness :
    getEpub sampleEnv artifactStore "L4" =
      (.ok { id := "L4", signedURL := some "https://signed.example/u",
             status := .completed, error := none }, []) :=
  C1_artifact_precedence sampleEnv artifactStore "L4" "https://signed.example/u"
    rfl rfl rfl

/-- C2 counterexample: with no artifact and a status read failing for a reason
OTHER than not-found, the code does not abort: it responds PENDING, writes a
status record, and dispatches — the source only tests the reader error for
nil, never for the not-found case specifically. -/
theorem C2_read_error_counterexample :
    getEpub sampleEnv readFailureStore "L0" =
      (.ok { id := "L0", signedURL := none, status := .pending, error := none },
       [.writeStatus "PENDING" "t1000", .dispatch "L0"]) := rfl

/-- C2 amended: when the artifact is absent and the status read fails for ANY
reason — not-found or otherwise — the query proceeds as a first request:
it writes a PENDING record, dispatches, and responds PENDING; no internal
error is surfaced for the read failure. -/
theorem C2_read_error_first_request (env : Env) (st : Store) (id : String)
    (hc : st.clientOk = true) (ha : st.artifact = false)
    (hr : st.statusRead = .errNotFound ∨ st.statusRead = .errOther)
    (hw : st.writeOk = true) :
    getEpub env st id =
      (.ok { id := id, signedURL := none, status := .pending, error := none },
       [.writeStatus "PENDING" (env.format env.now), .dispatch id]) := by
  rcases hr with h | h <;> simp [getEpub, hc, ha, h, firstRequest, hw]

/-- C2 amended witness: the first-request behavior at the concrete
other-than-not-found read failure. -/
theorem C2_read_error_first_request_witness :
    getEpub sampleEnv readFailureStore "L0" =
      (.ok { id := "L0", signedURL := none, status := .pending, error := none },
       [.writeStatus "PENDING" (sampleEnv.format sampleEnv.now), .dispatch "L0"]) :=
  C2_read_error_first_request sampleEnv readFailureStore "L0"
    rfl rfl (Or.inr rfl) rfl

/-- C7: a decodable PENDING record with no createdAt field makes the query
dispatch unconditionally and respond PENDING without any store write,
whatever the other fields hold. -/
theorem C7_missing_createdAt_dispatches (env : Env) (st : Store) (id : String)
    (m : StatusMap)
    (hc : st.clientOk = true) (ha : st.artifact = false)
    (hr : st.statusRead = .opened (.record m))
    (hstat : lookupField m "status" = some (.jstr "PENDING"))
    (hcr : lookupField m "createdAt" = none) :
    getEpub env st id =
      (.ok { id := id, signedURL := none, status := .pending,
             error := recordError m },
       [.dispatch id]) := by
  simp [getEpub, hc, ha, hr, handleExistingStatus, hstat,
    handlePendingStatus, hcr, asString]

/-- C7 witness: the unconditional dispatch at a concrete record with noise
fields and no createdAt. -/
theorem C7_missing_createdAt_dispatches_witness :
    getEpub sampleEnv noCreatedAtStore "L7" =
      (.ok { id := "L7", signedURL := none, status := .pending,
             error := some "leftover" },
       [.dispatch "L7"]) :=
  C7_missing_createdAt_dispatches sampleEnv noCreatedAtStore "L7"
    [("status", .jstr "PENDING"), ("error", .jstr "leftover"), ("x", .jnum 3)]
    rfl rfl rfl (by decide) (by decide)

/-- C9: with no artifact and a status object that exists but cannot be
decoded, the query aborts with a surfaced error and performs no dispatch,
no rewrite and no delete (empty effect list). -/
theorem C9_corrupt_record_aborts (env : Env) (st : Store) (id : String)
    (hc : st.clientOk = true) (ha : st.artifact = false)
    (hr : st.statusRead = .opened .corrupt) :
    getEpub env st id = (.error "failed to decode status", []) := by
  simp [getEpub, hc, ha, hr, handleExistingStatus]

/-- C9 witness: the corrupt-record abort at a concrete store. -/
theorem C9_corrupt_record_aborts_witness :
    getEpub sampleEnv corruptStore "L8" = (.error "failed to decode status", []) :=
  C9_corrupt_record_aborts sampleEnv corruptStore "L8" rfl rfl rfl

/-- C10: a decodable PENDING record whose createdAt is present but not
parseable is treated as fresh: the query succeeds with PENDING, no dispatch,
no store write, and no error surfaced. -/
theorem C10_unparsable_createdAt_fresh (env : Env) (st : Store) (id s : String)
    (m : StatusMap)
    (hc : st.clientOk = true) (ha : st.artifact = false)
    (hr : st.statusRead = .opened (.record m))
    (hstat : lookupField m "status" = some (.jstr "PENDING"))
    (hcr : lookupField m "createdAt" = some (.jstr s))
    (hp : env.parse s = none) :
    getEpub env st id =
      (.ok { id := id, signedURL := none, status := .pending,
             error := recordError m },
       []) := by
  simp [getEpub, hc, ha, hr, handleExistingStatus, hstat,
    handlePendingStatus, hcr, asString, hp]

/-- C10 witness: the silent-fresh behavior at a concrete unparsable
timestamp. -/
theorem C10_unparsable_createdAt_fresh_witness :
    getEpub sampleEnv badTimestampStore "LA" =
      (.ok { id := "LA", signedURL := none, status := .pending, error := none },
       []) :=
  C10_unparsable_createdAt_fresh sampleEnv badTimestampStore "LA" "not-a-time"
    [("status", .jstr "PENDING"), ("createdAt", .jstr "not-a-time")]
    rfl rfl rfl (by decide) (by decide) (by decide)

/-- C3 counterexample: a PROCESSING record carrying a non-empty error string
yields a response whose status is PROCESSING (not FAILED) yet whose error
field is present — the source fills the error field from the record whenever
the stored string is non-empty, independently of the reported status. -/
theorem C3_error_presence_counterexample :
    (getEpub sampleEnv processingErrorStore "L9").1 =
      .ok { id := "L9", signedURL := none, status := .processing,
            error := some "x" } ∧
    EpubStatus.processing ≠ EpubStatus.failed :=
  ⟨rfl, by decide⟩

/-- C3 amended: on every successful response, signedUrl is present iff the
status is COMPLETED, and the error field equals the decoded record's
non-empty error string (so it can be present with status PROCESSING or
PENDING, and absent with status FAILED) rather than tracking FAILED. -/
theorem C3_field_presence (env : Env) (st : Store) (id : String) (ep : Epub)
    (h : (getEpub env st id).1 = .ok ep) :
    (ep.signedURL.isSome ↔ ep.status = .completed) ∧
    ep.error = effectiveError st := by
  unfold getEpub at h
  cases hcl : st.clientOk with
  | false => simp [hcl] at h
  | true =>
    simp only [hcl] at h
    cases hart : st.artifact with
    | true =>
      simp only [hart] at h
      cases hsig : st.sign with
      | none => simp [hsig] at h
      | some url =>
        simp [hsig] at h
        subst h
        simp [effectiveError, hart]
    | false =>
      simp only [hart] at h
      cases hr : st.statusRead with
      | errNotFound =>
        simp only [hr, firstRequest] at h
        cases hw : st.writeOk with
        | false => simp [hw] at h
        | true =>
          simp [hw] at h
          subst h
          simp [effectiveError, hart, hr]
      | errOther =>
        simp only [hr, firstRequest] at h
        cases hw : st.writeOk with
        | false => simp [hw] at h
        | true =>
          simp [hw] at h
          subst h
          simp [effectiveError, hart, hr]
      | opened cnt =>
        simp [hr] at h
        cases cnt with
        | corrupt => simp [handleExistingStatus] at h
        | record m =>
          obtain ⟨s, hs, heq⟩ :=
            handleExistingStatus_record_fst env st.writeOk m id
          rw [heq] at h
          simp at h
          subst h
          simp [effectiveError, hart, hr, hs]

/-- C3 amended witness: the field-presence law applied to the concrete
PROCESSING-with-error store. -/
theorem C3_field_presence_witness :
    ((Option.none : Option String).isSome ↔
        EpubStatus.processing = EpubStatus.completed) ∧
    some "x" = effectiveError processingErrorStore :=
  C3_field_presence sampleEnv processingErrorStore "L9"
    { id := "L9", signedURL := none, status := .processing, error := some "x" }
    rfl

/-- C4: on a first query (client available, no artifact, status object not
found, write succeeding), the query responds PENDING, writes exactly one
status record with status PENDING and createdAt set to the formatted current
time, and makes exactly one dispatch call for that id; moreover the job
trigger for that id (with a project configured and a jobs client available)
builds argument overrides carrying exactly the id and the fixed version
tag. -/
theorem C4_first_query (env : Env) (st : Store) (jenv : JobEnv) (id : String)
    (hc : st.clientOk = true) (ha : st.artifact = false)
    (hr : st.statusRead = .errNotFound) (hw : st.writeOk = true)
    (hp : jenv.projectID ≠ "") (hj : jenv.clientOk = true) :
    getEpub env st id =
      (.ok { id := id, signedURL := none, status := .pending, error := none },
       [.writeStatus "PENDING" (env.format env.now), .dispatch id]) ∧
    ∃ req, triggerEpubGeneratorJob jenv id = some req ∧
      req.args = ["--revision-id", id, "--version", APP_VERSION] := by
  constructor
  · simp [getEpub, hc, ha, hr, firstRequest, hw]
  · refine ⟨⟨"projects/" ++ jenv.projectID ++ "/locations/"
        ++ (if jenv.region = "" then "asia-northeast1" else jenv.region)
        ++ "/jobs/"
        ++ (if jenv.jobName = "" then "epub-generator" else jenv.jobName),
      ["--revision-id", id, "--version", APP_VERSION]⟩, ?_, rfl⟩
    simp [triggerEpubGeneratorJob, hp, hj]

/-- Job trigger configuration used by witnesses: project set, defaults for
region and job name, client available. -/
def sampleJobEnv : JobEnv :=
  { projectID := "p", region := "", jobName := "", clientOk := true }

/-- C4 witness: the first-query behavior at the concrete fresh store and the
concrete job configuration. -/
theorem C4_first_query_witness :
    (getEpub sampleEnv freshStore "L1" =
      (.ok { id := "L1", signedURL := none, status := .pending, error := none },
       [.writeStatus "PENDING" (sampleEnv.format sampleEnv.now), .dispatch "L1"])) ∧
    ∃ req, triggerEpubGeneratorJob sampleJobEnv "L1" = some req ∧
      req.args = ["--revision-id", "L1", "--version", APP_VERSION] :=
  C4_first_query sampleEnv freshStore sampleJobEnv "L1"
    rfl rfl rfl rfl (by decide) rfl

/-- C5: a decodable PENDING record whose createdAt parses to an instant at
most 5 minutes old leaves the query with a PENDING response, no dispatch
call and no store write (the record is unchanged). -/
theorem C5_fresh_pending_no_effects (env : Env) (st : Store) (id s : String)
    (t : Int) (m : StatusMap)
    (hc : st.clientOk = true) (ha : st.artifact = false)
    (hr : st.statusRead = .opened (.record m))
    (hstat : lookupField m "status" = some (.jstr "PENDING"))
    (hcr : lookupField m "createdAt" = some (.jstr s))
    (hp : env.parse s = some t)
    (hage : env.now - t ≤ staleThresholdSecs) :
    getEpub env st id =
      (.ok { id := id, signedURL := none, status := .pending,
             error := recordError m },
       []) := by
  have hnot : ¬ (env.now - t > staleThresholdSecs) := not_lt.mpr hage
  simp [getEpub, hc, ha, hr, handleExistingStatus, hstat, asString,
    handlePendingStatus, hcr, hp, hnot]

/-- C5 witness: the no-effect behavior at a concrete 100-second-old PENDING
record. -/
theorem C5_fresh_pending_no_effects_witness :
    getEpub sampleEnv freshPendingStore "L2" =
      (.ok { id := "L2", signedURL := none, status := .pending, error := none },
       []) :=
  C5_fresh_pending_no_effects sampleEnv freshPendingStore "L2" "900" 900
    [("status", .jstr "PENDING"), ("createdAt", .jstr "900")]
    rfl rfl rfl (by decide) (by decide) (by decide) (by decide)

/-- C6: a decodable PENDING record whose createdAt parses to an instant more
than 5 minutes old makes the query respond PENDING, dispatch exactly once,
and rewrite the record with status PENDING and the freshly formatted current
time; under the library round-trip law at the current instant, the refreshed
createdAt differs from the old one. -/
theorem C6_stale_pending_redispatch (env : Env) (st : Store) (id s : String)
    (t : Int) (m : StatusMap)
    (hc : st.clientOk = true) (ha : st.artifact = false)
    (hr : st.statusRead = .opened (.record m))
    (hstat : lookupField m "status" = some (.jstr "PENDING"))
    (hcr : lookupField m "createdAt" = some (.jstr s))
    (hp : env.parse s = some t)
    (hage : env.now - t > staleThresholdSecs)
    (hw : st.writeOk = true)
    (hrt : env.parse (env.format env.now) = some env.now) :
    getEpub env st id =
      (.ok { id := id, signedURL := none, status := .pending,
             error := recordError m },
       [.dispatch id, .writeStatus "PENDING" (env.format env.now)]) ∧
    env.format env.now ≠ s := by
  constructor
  · simp [getEpub, hc, ha, hr, handleExistingStatus, hstat, asString,
      handlePendingStatus, hcr, hp, hage, updateStatusTimestamp, hw]
  · intro heq
    rw [heq, hp] at hrt
    have ht : t = env.now := by injection hrt
    subst ht
    simp [staleThresholdSecs] at hage

/-- C6 witness: the stale-redispatch behavior at a concrete 900-second-old
PENDING record, with the concrete round-trip oracle. -/
theorem C6_stale_pending_redispatch_witness :
    (getEpub sampleEnv stalePendingStore "L3" =
      (.ok { id := "L3", signedURL := none, status := .pending, error := none },
       [.dispatch "L3",
        .writeStatus "PENDING" (sampleEnv.format sampleEnv.now)])) ∧
    sampleEnv.format sampleEnv.now ≠ "100" :=
  C6_stale_pending_redispatch sampleEnv stalePendingStore "L3" "100" 100
    [("status", .jstr "PENDING"), ("createdAt", .jstr "100")]
    rfl rfl rfl (by decide) (by decide) (by decide) (by decide) rfl (by decide)

/-- C8: every status-record write the Orchestrator ever performs — first
creation or staleness refresh, under any store contents and any query —
carries status PENDING; it never writes PROCESSING, FAILED or COMPLETED. -/
theorem C8_writes_only_pending (env : Env) (st : Store) (id s c : String)
    (h : Effect.writeStatus s c ∈ (getEpub env st id).2) : s = "PENDING" := by
  unfold getEpub at h
  cases hcl : st.clientOk with
  | false => simp [hcl] at h
  | true =>
    simp only [hcl] at h
    cases hart : st.artifact with
    | true =>
      simp only [hart] at h
      cases hsig : st.sign with
      | none => simp [hsig] at h
      | some url => simp [hsig] at h
    | false =>
      simp only [hart] at h
      cases hr : st.statusRead with
      | errNotFound =>
        simp only [hr, firstRequest] at h
        cases hw : st.writeOk with
        | false => simp [hw] at h
        | true =>
          simp [hw] at h
          exact h.1
      | errOther =>
        simp only [hr, firstRequest] at h
        cases hw : st.writeOk with
        | false => simp [hw] at h
        | true =>
          simp [hw] at h
          exact h.1
      | opened cnt =>
        simp only [hr] at h
        exact handleExistingStatus_write_pending env st.writeOk cnt id s c h

/-- C8 witness: the only-PENDING write law applied to the concrete write
produced by a first query. -/
theorem C8_writes_only_pending_witness :
    Effect.writeStatus "PENDING" "t1000" ∈ (getEpub sampleEnv freshStore "W").2 ∧
    "PENDING" = "PENDING" :=
  ⟨by decide,
   C8_writes_only_pending sampleEnv freshStore "W" "PENDING" "t1000" (by decide)⟩

end Jplaw2Epub
